import Mathlib

/-!
Verification of the breakout-gui simulation core against its specification.

The C++ core (src/core) is shallowly embedded below.  `double` arithmetic is
modelled over the reals `ℝ`; IEEE special values only occur in `sweptAABB`,
where the source divides by velocity components guarded by explicit
zero-velocity checks, and the ±infinity entry/exit times of a zero-velocity
axis are rendered by case-splitting (an axis with zero velocity never
constrains the max/min of entry/exit times, exactly as ±∞ behaves there).
-/

namespace Breakout

open Classical in
/-- 2D vector of doubles (src/core/utils/vector2d.h). -/
structure Vector2D where
  x : ℝ
  y : ℝ


namespace Vector2D

instance : Add Vector2D := ⟨fun a b => ⟨a.x + b.x, a.y + b.y⟩⟩
instance : Sub Vector2D := ⟨fun a b => ⟨a.x - b.x, a.y - b.y⟩⟩

/-- Scalar multiplication `v * c` (vector2d.h `operator*(double)`). -/
def smul (v : Vector2D) (c : ℝ) : Vector2D := ⟨v.x * c, v.y * c⟩

/-- `Vector2D::length`: `sqrt(x*x + y*y)`. -/
noncomputable def length (v : Vector2D) : ℝ := Real.sqrt (v.x * v.x + v.y * v.y)

/-- `Vector2D::normalized`: zero vector when the length is zero. -/
noncomputable def normalized (v : Vector2D) : Vector2D :=
  if v.length = 0 then ⟨0, 0⟩ else ⟨v.x / v.length, v.y / v.length⟩

/-- `Vector2D::dot`. -/
def dot (a b : Vector2D) : ℝ := a.x * b.x + a.y * b.y

end Vector2D

/-- `reflect` (vector2d.cpp): reflect `incident` across `normal`. -/
noncomputable def reflect (incident normal : Vector2D) : Vector2D :=
  let n := normal.normalized
  let dotProd := incident.dot n
  incident - (n.smul dotProd).smul 2

/-- Axis-aligned rectangle (src/core/utils/collision.h). -/
structure Rect where
  x : ℝ
  y : ℝ
  width : ℝ
  height : ℝ


namespace Rect

def left (r : Rect) : ℝ := r.x
def right (r : Rect) : ℝ := r.x + r.width
def top (r : Rect) : ℝ := r.y
def bottom (r : Rect) : ℝ := r.y + r.height
def center (r : Rect) : Vector2D := ⟨r.x + r.width * 0.5, r.y + r.height * 0.5⟩

end Rect

/-- `intersects` (collision.cpp): strict open-interval AABB overlap test. -/
def intersects (a b : Rect) : Prop :=
  a.left < b.right ∧ a.right > b.left ∧ a.top < b.bottom ∧ a.bottom > b.top

/-- Result of the swept AABB test (collision.h). -/
structure SweptAABBResult where
  hit : Bool
  time : ℝ
  normal : Vector2D

/-- Default-initialized `SweptAABBResult{}` (collision.h member initializers). -/
def SweptAABBResult.noHit : SweptAABBResult := ⟨false, 1, ⟨0, 0⟩⟩

open Classical in
/-- `sweptAABB` (collision.cpp).  The source assigns entry time `-inf` and
exit time `+inf` to a zero-velocity axis; since such an axis then never
determines `max(entryX, entryY)` / `min(exitX, exitY)` nor wins the normal
comparison `entryTime.x > entryTime.y`, the embedding case-splits on the
zero-velocity tests instead of manipulating infinities. -/
noncomputable def sweptAABB (movingRect : Rect) (velocity : Vector2D)
    (staticRect : Rect) (deltaTime : ℝ) : SweptAABBResult :=
  if deltaTime ≤ 0 then SweptAABBResult.noHit
  else
    -- Minkowski expansion of the static rect by the moving rect's dimensions
    let expanded : Rect := ⟨staticRect.x - movingRect.width, staticRect.y - movingRect.height,
                            staticRect.width + movingRect.width, staticRect.height + movingRect.height⟩
    -- Zero velocity on an axis with no overlap on that axis: no collision
    if velocity.x = 0 ∧ (movingRect.x < expanded.left ∨ movingRect.x > expanded.right) then
      SweptAABBResult.noHit
    else if velocity.y = 0 ∧ (movingRect.y < expanded.top ∨ movingRect.y > expanded.bottom) then
      SweptAABBResult.noHit
    else
      let invEntryX := if velocity.x > 0 then expanded.left - movingRect.x else expanded.right - movingRect.x
      let invExitX  := if velocity.x > 0 then expanded.right - movingRect.x else expanded.left - movingRect.x
      let invEntryY := if velocity.y > 0 then expanded.top - movingRect.y else expanded.bottom - movingRect.y
      let invExitY  := if velocity.y > 0 then expanded.bottom - movingRect.y else expanded.top - movingRect.y
      if velocity.x = 0 then
        if velocity.y = 0 then
          -- both entry times are -inf, so `entry < 0` rejects
          SweptAABBResult.noHit
        else
          -- x entry time -inf / exit time +inf: the y axis alone decides
          let entry := invEntryY / (velocity.y * deltaTime)
          let exit := invExitY / (velocity.y * deltaTime)
          if entry > exit ∨ entry < 0 ∨ entry > 1 then SweptAABBResult.noHit
          else ⟨true, entry, if velocity.y < 0 then ⟨0, 1⟩ else ⟨0, -1⟩⟩
      else if velocity.y = 0 then
        -- y entry time -inf / exit time +inf: the x axis alone decides
        let entry := invEntryX / (velocity.x * deltaTime)
        let exit := invExitX / (velocity.x * deltaTime)
        if entry > exit ∨ entry < 0 ∨ entry > 1 then SweptAABBResult.noHit
        else ⟨true, entry, if velocity.x < 0 then ⟨1, 0⟩ else ⟨-1, 0⟩⟩
      else
        let entryX := invEntryX / (velocity.x * deltaTime)
        let entryY := invEntryY / (velocity.y * deltaTime)
        let exitX := invExitX / (velocity.x * deltaTime)
        let exitY := invExitY / (velocity.y * deltaTime)
        let entry := max entryX entryY
        let exit := min exitX exitY
        if entry > exit ∨ entry < 0 ∨ entry > 1 then SweptAABBResult.noHit
        else if entryX > entryY then
          ⟨true, entry, if velocity.x < 0 then ⟨1, 0⟩ else ⟨-1, 0⟩⟩
        else
          ⟨true, entry, if velocity.y < 0 then ⟨0, 1⟩ else ⟨0, -1⟩⟩

/-- `clamp` helper shared by physics_engine.cpp and game_engine.cpp:
`max(minVal, min(v, maxVal))`. -/
noncomputable def clamp (v minVal maxVal : ℝ) : ℝ := max minVal (min v maxVal)

/-- `clampVector` (collision.cpp). -/
noncomputable def clampVector (value : Vector2D) (maxLength : ℝ) : Vector2D :=
  let len := value.length
  if len ≤ maxLength ∨ len = 0 then value else value.normalized.smul maxLength

-- ===========================================================================
-- Entities (src/core/entities)
-- ===========================================================================

/-- `BrickType` (brick.h). -/
inductive BrickType
  | Normal
  | Durable
  | Indestructible
deriving DecidableEq

/-- `BrickState` (brick.h). -/
structure BrickState where
  type : BrickType
  bounds : Rect
  hitsRemaining : ℤ
  destroyed : Bool
  assignedPowerup : ℤ

/-- The data of the polymorphic `Brick` class (brick.h) as a tagged record:
the C++ subclasses differ only in the constructor arguments and in
`IndestructibleBrick`'s `applyHit` override, which coincides with the base
class's `isBreakable` guard. -/
structure Brick where
  type : BrickType
  bounds : Rect
  hitsRemaining : ℤ
  destroyed : Bool
  assignedPowerup : ℤ

/-- `std::numeric_limits<int>::max()`, the sentinel hit count of
`IndestructibleBrick`. -/
def intMax : ℤ := 2 ^ 31 - 1

/-- `NormalBrick` constructor. -/
def NormalBrick (bounds : Rect) : Brick := ⟨BrickType.Normal, bounds, 1, false, -1⟩

/-- `DurableBrick` constructor: `hits < 1 ? 1 : hits`. -/
def DurableBrick (bounds : Rect) (hits : ℤ) : Brick :=
  ⟨BrickType.Durable, bounds, if hits < 1 then 1 else hits, false, -1⟩

/-- `IndestructibleBrick` constructor. -/
def IndestructibleBrick (bounds : Rect) : Brick :=
  ⟨BrickType.Indestructible, bounds, intMax, false, -1⟩

namespace Brick

/-- `Brick::isBreakable`. -/
def isBreakable (b : Brick) : Bool := b.type ≠ BrickType.Indestructible

/-- `Brick::isDestroyed`. -/
def isDestroyed (b : Brick) : Bool := b.destroyed

/-- `Brick::applyHit` (brick.cpp) together with `IndestructibleBrick`'s
override (brick.h line 77), which returns false exactly like the
`!isBreakable()` guard of the base implementation.  Returns
(was-just-destroyed, updated brick). -/
def applyHit (b : Brick) : Bool × Brick :=
  if ¬ b.isBreakable then (false, b)
  else
    let b := if b.hitsRemaining > 0 then { b with hitsRemaining := b.hitsRemaining - 1 } else b
    if b.hitsRemaining ≤ 0 then (true, { b with destroyed := true })
    else (false, b)

/-- `Brick::state`. -/
def state (b : Brick) : BrickState :=
  ⟨b.type, b.bounds, b.hitsRemaining, b.destroyed, b.assignedPowerup⟩

/-- `Brick::restoreState`. -/
def restoreState (b : Brick) (s : BrickState) : Brick :=
  { b with hitsRemaining := s.hitsRemaining, destroyed := s.destroyed,
           assignedPowerup := s.assignedPowerup }

/-- Iterated `applyHit`, for properties about call sequences. -/
def applyHitSeq (b : Brick) : ℕ → Brick
  | 0 => b
  | n + 1 => ((applyHitSeq b n).applyHit).2

end Brick

/-- `BrickFactory::createFromChar` (brick.cpp). -/
def BrickFactory.createFromChar (symbol : Char) (bounds : Rect) : Option Brick :=
  if symbol = '@' then some (NormalBrick bounds)
  else if symbol = '#' then some (DurableBrick bounds 2)
  else if symbol = '*' then some (IndestructibleBrick bounds)
  else none

/-- `createBrickFromState` (game_engine.cpp anonymous namespace). -/
def createBrickFromState (s : BrickState) : Option Brick :=
  let brick : Option Brick :=
    match s.type with
    | BrickType.Normal => some (NormalBrick s.bounds)
    | BrickType.Durable => some (DurableBrick s.bounds s.hitsRemaining)
    | BrickType.Indestructible => some (IndestructibleBrick s.bounds)
  brick.map (fun b => b.restoreState s)

/-- `BallState` (ball.h). -/
structure BallState where
  position : Vector2D
  velocity : Vector2D
  radius : ℝ

/-- `Ball` (ball.h). -/
structure Ball where
  position : Vector2D
  velocity : Vector2D
  radius : ℝ

namespace Ball

/-- `Ball::bounds`. -/
def bounds (b : Ball) : Rect :=
  ⟨b.position.x - b.radius, b.position.y - b.radius, b.radius * 2, b.radius * 2⟩

/-- `Ball::setSpeedPreserveDirection` (ball.cpp). -/
noncomputable def setSpeedPreserveDirection (b : Ball) (speed : ℝ) : Ball :=
  { b with velocity := b.velocity.normalized.smul speed }

/-- `Ball::state`. -/
def state (b : Ball) : BallState := ⟨b.position, b.velocity, b.radius⟩

/-- `Ball::restore`. -/
def restore (_b : Ball) (s : BallState) : Ball := ⟨s.position, s.velocity, s.radius⟩

end Ball

/-- `PaddleState` (paddle.h). -/
structure PaddleState where
  position : Vector2D
  width : ℝ
  height : ℝ

/-- `Paddle` (paddle.h). -/
structure Paddle where
  position : Vector2D
  width : ℝ
  height : ℝ
  speed : ℝ

namespace Paddle

/-- `Paddle::bounds`. -/
def bounds (p : Paddle) : Rect := ⟨p.position.x, p.position.y, p.width, p.height⟩

/-- `Paddle::state` (the paddle's `speed_` is not part of the state). -/
def state (p : Paddle) : PaddleState := ⟨p.position, p.width, p.height⟩

/-- `Paddle::restore`. -/
def restore (p : Paddle) (s : PaddleState) : Paddle :=
  { p with position := s.position, width := s.width, height := s.height }

end Paddle

-- ===========================================================================
-- PhysicsEngine (src/core/game/physics_engine.cpp)
-- ===========================================================================

open Classical in
/-- `PhysicsEngine::calculatePaddleReflection`. -/
noncomputable def calculatePaddleReflection (incomingVelocity : Vector2D)
    (hitPositionRatio : ℝ) : Vector2D :=
  let theta0 := Real.pi / 2
  let k := Real.pi / 3
  let exitAngle := clamp (theta0 - k * hitPositionRatio) (Real.pi / 6) (5 * Real.pi / 6)
  let speed := incomingVelocity.length
  ⟨speed * Real.cos exitAngle, -(speed * Real.sin exitAngle)⟩

open Classical in
/-- `PhysicsEngine::resolveWallCollision`.  The source captures the ball's
bounds once, then conditionally repositions/reflects on the x walls and the
top wall (with the anti-vertical-loop adjustment). -/
noncomputable def resolveWallCollision (ball : Ball) (bounds : Rect) : Ball :=
  let b := ball.bounds
  let vel := ball.velocity
  let sideWall : Ball × Vector2D :=
    if b.left < bounds.left then
      ({ ball with position := ⟨bounds.left + ball.radius, ball.position.y⟩ }, ⟨-vel.x, vel.y⟩)
    else if b.right > bounds.right then
      ({ ball with position := ⟨bounds.right - ball.radius, ball.position.y⟩ }, ⟨-vel.x, vel.y⟩)
    else (ball, vel)
  let ball := sideWall.1
  let vel := sideWall.2
  if b.top < bounds.top then
    let ball := { ball with position := ⟨ball.position.x, bounds.top + ball.radius⟩ }
    let vel : Vector2D := ⟨vel.x, -vel.y⟩
    if |vel.x| < 0.1 then
      let speed := vel.length
      let minAngle := (0.1 : ℝ)
      let vx := speed * minAngle * (if vel.x ≥ 0 then 1 else -1)
      { ball with velocity := ⟨vx, -Real.sqrt (speed * speed - vx * vx)⟩ }
    else { ball with velocity := vel }
  else { ball with velocity := vel }

open Classical in
/-- `PhysicsEngine::resolvePaddleCollision`.  Returns (hit, updated ball). -/
noncomputable def resolvePaddleCollision (ball : Ball) (paddle : Paddle) : Bool × Ball :=
  if ball.velocity.y ≤ 0 then (false, ball)
  else if ¬ intersects ball.bounds paddle.bounds then (false, ball)
  else
    let paddleCenter := paddle.position.x + paddle.width * 0.5
    let hitRatio := clamp ((ball.position.x - paddleCenter) / (paddle.width * 0.5)) (-1) 1
    let newVelocity := calculatePaddleReflection ball.velocity hitRatio
    (true, { ball with velocity := newVelocity,
                       position := ⟨ball.position.x, paddle.position.y - ball.radius⟩ })

/-- `TIME_EPSILON` in `resolveBrickCollisions`. -/
noncomputable def timeEpsilon : ℝ := 0.0001

/-- `std::numeric_limits<double>::max()`, the initial tie-break distance. -/
noncomputable def doubleMax : ℝ := (2 - (2 : ℝ) ^ (-52 : ℤ)) * 2 ^ 1023

/-- Accumulator of the earliest-hit scan in `resolveBrickCollisions`:
`earliest`, `hitDistance`, `hitIndex` (the sentinel `bricks.size()` of the
source is rendered as `none`), `hitNormal`. -/
structure HitScan where
  earliest : ℝ
  hitDistance : ℝ
  hitIndex : Option ℕ
  hitNormal : Vector2D

open Classical in
/-- The inner brick scan of `resolveBrickCollisions` (physics_engine.cpp
lines 127-159): among non-destroyed bricks, pick the swept-AABB hit with
the smallest time, tie-breaking (within `TIME_EPSILON`) by distance from
the brick's center to the ball's center. -/
noncomputable def scanBricks (ballBounds : Rect) (ballPos velocity : Vector2D)
    (dt : ℝ) : List Brick → ℕ → HitScan → HitScan
  | [], _, acc => acc
  | b :: rest, i, acc =>
    if b.isDestroyed then scanBricks ballBounds ballPos velocity dt rest (i + 1) acc
    else
      let result := sweptAABB ballBounds velocity b.bounds dt
      if result.hit then
        let dx := (b.bounds.x + b.bounds.width * 0.5) - ballPos.x
        let dy := (b.bounds.y + b.bounds.height * 0.5) - ballPos.y
        let distance := Real.sqrt (dx * dx + dy * dy)
        let acc :=
          if result.time < acc.earliest - timeEpsilon then
            ⟨result.time, distance, some i, result.normal⟩
          else if |result.time - acc.earliest| ≤ timeEpsilon ∧ distance < acc.hitDistance then
            ⟨result.time, distance, some i, result.normal⟩
          else acc
        scanBricks ballBounds ballPos velocity dt rest (i + 1) acc
      else scanBricks ballBounds ballPos velocity dt rest (i + 1) acc

open Classical in
/-- The big-ball area-destruction loop of `resolveBrickCollisions`
(physics_engine.cpp lines 182-200): hit every non-destroyed brick whose
center lies within `destructionRadius` of the ball's center, counting the
destructions. -/
noncomputable def bigBallSweep (ballCenter : Vector2D) (destructionRadius : ℝ) :
    List Brick → List Brick × ℤ
  | [] => ([], 0)
  | b :: rest =>
    let res := bigBallSweep ballCenter destructionRadius rest
    if b.isDestroyed then (b :: res.1, res.2)
    else
      let dx := (b.bounds.x + b.bounds.width * 0.5) - ballCenter.x
      let dy := (b.bounds.y + b.bounds.height * 0.5) - ballCenter.y
      let distance := Real.sqrt (dx * dx + dy * dy)
      if distance ≤ destructionRadius then
        let hit := b.applyHit
        (hit.2 :: res.1, res.2 + (if hit.1 then 1 else 0))
      else (b :: res.1, res.2)

/-- The mutable locals of `resolveBrickCollisions`'s iteration loop. -/
structure ResolveState where
  ball : Ball
  bricks : List Brick
  velocity : Vector2D
  remainingTime : ℝ
  destroyed : ℤ

open Classical in
/-- One-or-more iterations of the `for (iteration < 3 && remainingTime > 0)`
loop of `resolveBrickCollisions`; the fuel argument is the remaining
iteration count, and a scan with no hit is the source's `break`. -/
noncomputable def resolveIter (deltaTime : ℝ) (bigBallMode : Bool) :
    ℕ → ResolveState → ResolveState
  | 0, s => s
  | n + 1, s =>
    if ¬ s.remainingTime > 0 then s
    else
      let scan := scanBricks s.ball.bounds s.ball.position s.velocity
        (deltaTime * s.remainingTime) s.bricks 0 ⟨1, doubleMax, none, ⟨0, 0⟩⟩
      match scan.hitIndex with
      | none => s
      | some hitIndex =>
        let earliest := scan.earliest
        let travelTime := earliest * deltaTime * s.remainingTime
        let ball := { s.ball with position := s.ball.position + s.velocity.smul travelTime }
        let velocity := reflect s.velocity scan.hitNormal
        -- nudge out along the collision normal by half the radius
        let ball := { ball with position := ball.position + scan.hitNormal.smul (ball.radius * 0.5) }
        let ball := { ball with velocity := velocity }
        let hit := (s.bricks.getD hitIndex (NormalBrick ⟨0, 0, 0, 0⟩)).applyHit
        let bricks := s.bricks.set hitIndex hit.2
        let next :=
          if hit.1 then
            if bigBallMode then
              let swept := bigBallSweep ball.position (ball.radius * 2.5) bricks
              (swept.1, s.destroyed + 1 + swept.2)
            else (bricks, s.destroyed + 1)
          else (bricks, s.destroyed)
        resolveIter deltaTime bigBallMode n
          { ball := ball, bricks := next.1, velocity := velocity,
            remainingTime := s.remainingTime * (1 - earliest), destroyed := next.2 }

open Classical in
/-- `PhysicsEngine::resolveBrickCollisions`: returns (destroyed count,
updated ball, updated bricks). -/
noncomputable def resolveBrickCollisions (ball : Ball) (bricks : List Brick)
    (deltaTime : ℝ) (bigBallMode : Bool) : ℤ × Ball × List Brick :=
  let s := resolveIter deltaTime bigBallMode 3 ⟨ball, bricks, ball.velocity, 1, 0⟩
  let ball :=
    if s.remainingTime > 0 then
      { s.ball with position := s.ball.position + s.velocity.smul (deltaTime * s.remainingTime) }
    else s.ball
  (s.destroyed, ball, s.bricks)

-- ===========================================================================
-- LevelManager (src/core/game/level_manager.cpp)
-- ===========================================================================

/-- `LevelManager::hasLevel`: 1-indexed bounds check against the layout list. -/
def hasLevel (layouts : List (List String)) (index : ℤ) : Bool :=
  decide (0 ≤ index - 1) && decide (index - 1 < (layouts.length : ℤ))

/-- `LevelManager::maxColumns`: longest row of the selected layout, 0 when
the level does not exist. -/
def maxColumns (layouts : List (List String)) (index : ℤ) : ℕ :=
  if ¬ hasLevel layouts index then 0
  else (layouts.getD (index - 1).toNat []).foldl (fun m row => max m row.length) 0

/-- `LevelManager::buildLevel`: map the character grid to positioned bricks,
skipping spaces and symbols the factory rejects. -/
def buildLevel (layouts : List (List String)) (index : ℤ)
    (brickWidth brickHeight offsetX offsetY : ℝ) : List Brick :=
  if ¬ hasLevel layouts index then []
  else
    let rows := layouts.getD (index - 1).toNat []
    (rows.enum.map (fun r =>
      r.2.toList.enum.filterMap (fun c =>
        if c.2 = ' ' then none
        else BrickFactory.createFromChar c.2
          ⟨offsetX + (c.1 : ℝ) * brickWidth, offsetY + (r.1 : ℝ) * brickHeight,
           brickWidth, brickHeight⟩))).flatten

-- ===========================================================================
-- GameEngine (src/core/game/game_engine.cpp)
-- ===========================================================================

/-- The repository's `Random` (random.h/.cpp) wraps `std::mt19937` and
`std::uniform_*_distribution`, which are external standard-library code;
it is modelled as an abstract stream of draws consumed in call order.  No
claim below depends on the distribution of the drawn values. -/
structure Random where
  draws : ℕ → ℝ
  idx : ℕ

/-- `Random::nextDouble`: consume the next draw of the stream. -/
def Random.nextDouble (r : Random) (_minInclusive _maxInclusive : ℝ) : ℝ × Random :=
  (r.draws r.idx, ⟨r.draws, r.idx + 1⟩)

/-- `GameEngine::PowerupType` (game_engine.h). -/
inductive PowerupType
  | ExpandPaddle
  | ExtraLife
  | SpeedBoost
  | PointMultiplier
  | MultiBall
deriving DecidableEq

/-- `static_cast<int>(PowerupType)`. -/
def PowerupType.toInt : PowerupType → ℤ
  | .ExpandPaddle => 0
  | .ExtraLife => 1
  | .SpeedBoost => 2
  | .PointMultiplier => 3
  | .MultiBall => 4

/-- `static_cast<PowerupType>(int)`, applied by the source only after
checking the value is in `[0, 4]`. -/
def powerupTypeOfInt (n : ℤ) : PowerupType :=
  if n = 0 then .ExpandPaddle
  else if n = 1 then .ExtraLife
  else if n = 2 then .SpeedBoost
  else if n = 3 then .PointMultiplier
  else .MultiBall

/-- `GameEngine::Powerup` (game_engine.h). -/
structure Powerup where
  type : PowerupType
  position : Vector2D
  velocity : Vector2D
  size : ℝ

/-- `EndgameSnapshot::SavedPowerup` (endgame_state.h). -/
structure SavedPowerup where
  type : ℤ
  position : Vector2D
  velocity : Vector2D
  size : ℝ

/-- `EndgameSnapshot` (endgame_state.h).  `pointMultiplier` is a `double`
there although the engine field is an `int`. -/
structure EndgameSnapshot where
  name : String
  configName : String
  configBallSpeed : ℤ
  configRandomSeed : ℤ
  configStartingLevel : ℤ
  level : ℤ
  score : ℤ
  lives : ℤ
  comboStreak : ℤ
  scoreMultiplier : ℤ
  expandTimer : ℝ
  speedBoostTimer : ℝ
  pointMultiplier : ℝ
  pointMultiplierTimer : ℝ
  bounds : Rect
  ball : BallState
  paddle : PaddleState
  ballAttached : Bool
  bricks : List BrickState
  powerups : List SavedPowerup

open Classical in
/-- C++ double-to-int conversion (truncation toward zero), used when
`loadFromSnapshot` assigns the snapshot's `double pointMultiplier` to the
engine's `int pointMultiplier_`. -/
noncomputable def doubleToInt (x : ℝ) : ℤ := if 0 ≤ x then ⌊x⌋ else -⌊-x⌋

/-- `std::clamp` on `int` (used for the score multiplier). -/
def intClamp (v lo hi : ℤ) : ℤ := max lo (min v hi)

-- Game constants (game_engine.cpp anonymous namespace)

noncomputable def kPowerupSpawnChance : ℝ := 0.5
noncomputable def kPowerupFallSpeed : ℝ := 120
noncomputable def kExpandWidthBonus : ℝ := 70
noncomputable def kExpandDuration : ℝ := 12
noncomputable def kSpeedBoostDuration : ℝ := 10
noncomputable def kSpeedBoostMultiplier : ℝ := 1.5
noncomputable def kPointMultiplierDuration : ℝ := 15
noncomputable def kMaxPaddleWidth : ℝ := 320
def kBrickPoints : ℤ := 100
def kMaxLives : ℤ := 5
def kMaxPointMultiplier : ℤ := 10

/-- The private fields of `GameEngine` (game_engine.h). -/
structure GameState where
  rng : Random
  ball : Ball
  paddle : Paddle
  bricks : List Brick
  powerups : List Powerup
  bounds : Rect
  score : ℤ
  lives : ℤ
  currentLevel : ℤ
  startingLevel : ℤ
  ballSpeed : ℝ
  baseBallSpeed : ℝ
  ballAttached : Bool
  levelComplete : Bool
  comboStreak : ℤ
  scoreMultiplier : ℤ
  expandTimer : ℝ
  speedBoostTimer : ℝ
  pointMultiplier : ℤ
  pointMultiplierTimer : ℝ
  levelBasePaddleWidth : ℝ
  bigBallTimer : ℝ
  baseBallRadius : ℝ
  levels : List (List String)

namespace GameState

/-- `GameEngine::isGameOver`. -/
def isGameOver (s : GameState) : Bool := s.lives ≤ 0

/-- `GameEngine::breakableBrickCount`. -/
def breakableBrickCount (s : GameState) : ℕ :=
  (s.bricks.filter (fun b => b.isBreakable && ! b.isDestroyed)).length

/-- `GameEngine::isLevelComplete` (the accessor recomputed from the bricks,
distinct from the `levelComplete_` flag). -/
def isLevelCompleteNow (s : GameState) : Bool := s.breakableBrickCount = 0

/-- `GameEngine::resetCombo`. -/
def resetCombo (s : GameState) : GameState :=
  { s with comboStreak := 0, scoreMultiplier := 1 }

/-- `GameEngine::attachBallToPaddle`. -/
def attachBallToPaddle (s : GameState) : GameState :=
  { s with ballAttached := true,
           ball := { s.ball with
             velocity := ⟨0, 0⟩,
             position := ⟨s.paddle.position.x + s.paddle.width * 0.5,
                          s.paddle.position.y - s.ball.radius - 1⟩ } }

/-- `GameEngine::positionPaddleAndBall`. -/
noncomputable def positionPaddleAndBall (s : GameState) : GameState :=
  let paddleY := s.bounds.bottom - s.paddle.height - 12
  let paddleX := s.bounds.x + s.bounds.width * 0.5 - s.paddle.width * 0.5
  let paddle := { s.paddle with position := ⟨paddleX, paddleY⟩ }
  { s with paddle := paddle,
           ball := { s.ball with
             position := ⟨paddle.position.x + paddle.width * 0.5,
                          paddle.position.y - s.ball.radius - 1⟩,
             velocity := ⟨0, -s.ballSpeed⟩ } }

/-- `GameEngine::clearEffects`. -/
noncomputable def clearEffects (s : GameState) : GameState :=
  let centerX := s.paddle.position.x + s.paddle.width * 0.5
  let paddle := { s.paddle with width := s.levelBasePaddleWidth }
  let paddle := { paddle with position := ⟨centerX - s.levelBasePaddleWidth * 0.5, paddle.position.y⟩ }
  let ball := s.ball.setSpeedPreserveDirection s.baseBallSpeed
  { s with expandTimer := 0, speedBoostTimer := 0, pointMultiplier := 1,
           pointMultiplierTimer := 0, bigBallTimer := 0,
           paddle := paddle, ball := { ball with radius := s.baseBallRadius } }

/-- `GameEngine::spawnPowerup`: weighted random type selection. -/
noncomputable def spawnPowerup (s : GameState) (position : Vector2D) : GameState :=
  let draw := s.rng.nextDouble 0 1
  let roll := draw.1
  let ptype :=
    if roll < 0.2 then PowerupType.ExpandPaddle
    else if roll < 0.4 then PowerupType.ExtraLife
    else if roll < 0.6 then PowerupType.SpeedBoost
    else if roll < 0.8 then PowerupType.PointMultiplier
    else PowerupType.MultiBall
  { s with rng := draw.2,
           powerups := s.powerups ++ [⟨ptype, position, ⟨0, kPowerupFallSpeed⟩, 14⟩] }

/-- `GameEngine::spawnPowerupOfType`. -/
noncomputable def spawnPowerupOfType (s : GameState) (position : Vector2D)
    (type : PowerupType) : GameState :=
  { s with powerups := s.powerups ++ [⟨type, position, ⟨0, kPowerupFallSpeed⟩, 14⟩] }

/-- `GameEngine::applyPowerup`. -/
noncomputable def applyPowerup (s : GameState) (p : Powerup) : GameState :=
  match p.type with
  | PowerupType.ExpandPaddle =>
    let centerX := s.paddle.position.x + s.paddle.width * 0.5
    let targetWidth := clamp (s.levelBasePaddleWidth + kExpandWidthBonus)
      s.levelBasePaddleWidth kMaxPaddleWidth
    let paddle := { s.paddle with width := targetWidth }
    let newX := clamp (centerX - targetWidth * 0.5) s.bounds.left (s.bounds.right - targetWidth)
    { s with paddle := { paddle with position := ⟨newX, paddle.position.y⟩ },
             expandTimer := min (s.expandTimer + kExpandDuration) 60 }
  | PowerupType.ExtraLife =>
    { s with lives := min (s.lives + 1) kMaxLives }
  | PowerupType.SpeedBoost =>
    { s with speedBoostTimer := min (s.speedBoostTimer + kSpeedBoostDuration) 60,
             ball := s.ball.setSpeedPreserveDirection (s.baseBallSpeed * kSpeedBoostMultiplier) }
  | PowerupType.PointMultiplier =>
    { s with pointMultiplier := min (s.pointMultiplier + 2) kMaxPointMultiplier,
             pointMultiplierTimer := min (s.pointMultiplierTimer + kPointMultiplierDuration) 60 }
  | PowerupType.MultiBall =>
    { s with bigBallTimer := 15, ball := { s.ball with radius := s.baseBallRadius * 2 } }

open Classical in
/-- The pickup move/collect/cull loop of `GameEngine::updatePowerups`
(game_engine.cpp lines 352-369).  The paddle rectangle is the one captured
before the loop; effects of collected pickups apply to the running state. -/
noncomputable def stepPowerups (dt : ℝ) (paddleRect : Rect) (boundsBottom : ℝ) :
    List Powerup → GameState → GameState × List Powerup
  | [], s => (s, [])
  | p :: rest, s =>
    let p := { p with position := p.position + p.velocity.smul dt }
    let pr : Rect := ⟨p.position.x - p.size * 0.5, p.position.y - p.size * 0.5, p.size, p.size⟩
    if intersects pr paddleRect then
      stepPowerups dt paddleRect boundsBottom rest (s.applyPowerup p)
    else if pr.top > boundsBottom then
      stepPowerups dt paddleRect boundsBottom rest s
    else
      let res := stepPowerups dt paddleRect boundsBottom rest s
      (res.1, p :: res.2)

open Classical in
/-- `GameEngine::updatePowerups`: advance/expire the four effect timers,
then move, collect and cull the in-flight pickups. -/
noncomputable def updatePowerups (s : GameState) (deltaTime : ℝ) : GameState :=
  let s :=
    if s.expandTimer > 0 then
      let t := s.expandTimer - deltaTime
      if t ≤ 0 then
        let centerX := s.paddle.position.x + s.paddle.width * 0.5
        let paddle := { s.paddle with width := s.levelBasePaddleWidth }
        { s with expandTimer := 0,
                 paddle := { paddle with
                   position := ⟨centerX - s.levelBasePaddleWidth * 0.5, paddle.position.y⟩ } }
      else { s with expandTimer := t }
    else s
  let s :=
    if s.speedBoostTimer > 0 then
      let t := s.speedBoostTimer - deltaTime
      if t ≤ 0 then
        { s with speedBoostTimer := 0, ball := s.ball.setSpeedPreserveDirection s.baseBallSpeed }
      else { s with speedBoostTimer := t }
    else s
  let s :=
    if s.pointMultiplierTimer > 0 then
      let t := s.pointMultiplierTimer - deltaTime
      if t ≤ 0 then { s with pointMultiplierTimer := 0, pointMultiplier := 1 }
      else { s with pointMultiplierTimer := t }
    else s
  let s :=
    if s.bigBallTimer > 0 then
      let t := s.bigBallTimer - deltaTime
      if t ≤ 0 then
        { s with bigBallTimer := 0, ball := { s.ball with radius := s.baseBallRadius } }
      else { s with bigBallTimer := t }
    else s
  if s.powerups = [] then s
  else
    let res := stepPowerups deltaTime s.paddle.bounds s.bounds.bottom s.powerups s
    { res.1 with powerups := res.2 }

open Classical in
/-- The newly-destroyed-brick powerup spawn loop of `GameEngine::update`
(game_engine.cpp lines 225-237), folding over the pre-collision destroyed
flags zipped with the post-collision bricks. -/
noncomputable def spawnPhase : List (Bool × Brick) → GameState → GameState
  | [], s => s
  | wb :: rest, s =>
    let s :=
      if ¬ wb.1 ∧ wb.2.isDestroyed then
        if 0 ≤ wb.2.assignedPowerup ∧ wb.2.assignedPowerup ≤ 4 then
          s.spawnPowerupOfType wb.2.bounds.center (powerupTypeOfInt wb.2.assignedPowerup)
        else
          let draw := s.rng.nextDouble 0 1
          let s := { s with rng := draw.2 }
          if draw.1 < kPowerupSpawnChance then s.spawnPowerup wb.2.bounds.center else s
      else s
    spawnPhase rest s

open Classical in
/-- `GameEngine::update`. -/
noncomputable def update (s : GameState) (deltaTime : ℝ) : GameState :=
  if s.isGameOver ∨ s.levelComplete then s
  else
    let s := s.updatePowerups deltaTime
    if s.ballAttached then
      { s with ball := { s.ball with
          position := ⟨s.paddle.position.x + s.paddle.width * 0.5,
                       s.paddle.position.y - s.ball.radius - 1⟩ } }
    else if s.ball.bounds.bottom ≥ s.bounds.bottom then
      -- ball fell off the bottom: lose a life before any physics this frame
      let s := ({ s with lives := s.lives - 1 }).resetCombo
      if ¬ s.isGameOver then (s.positionPaddleAndBall).attachBallToPaddle else s
    else
      let wasDestroyed := s.bricks.map Brick.isDestroyed
      let res := resolveBrickCollisions s.ball s.bricks deltaTime (decide (s.bigBallTimer > 0))
      let destroyed := res.1
      let s := { s with ball := res.2.1, bricks := res.2.2 }
      let s :=
        if destroyed > 0 then
          let comboStreak := s.comboStreak + destroyed
          let scoreMultiplier := intClamp (1 + Int.tdiv comboStreak 3) 1 5
          let s := { s with comboStreak := comboStreak, scoreMultiplier := scoreMultiplier,
                            score := s.score + destroyed * kBrickPoints * scoreMultiplier * s.pointMultiplier }
          spawnPhase (wasDestroyed.zip s.bricks) s
        else s
      let s := { s with ball := resolveWallCollision s.ball s.bounds }
      let paddleRes := resolvePaddleCollision s.ball s.paddle
      let s := { s with ball := paddleRes.2 }
      let s := if paddleRes.1 then s.resetCombo else s
      if s.isLevelCompleteNow then ({ s with levelComplete := true }).attachBallToPaddle
      else s

/-- `GameEngine::resetLevel`. -/
noncomputable def resetLevel (s : GameState) (levelIndex : ℤ) : GameState :=
  let s := { s with currentLevel := levelIndex, levelComplete := false,
                    comboStreak := 0, scoreMultiplier := 1 }
  let s := s.clearEffects
  let s := { s with powerups := [] }
  let maxCols := maxColumns s.levels levelIndex
  let maxCols := if maxCols = 0 then 12 else maxCols
  let availableWidth := s.bounds.width - 16
  let brickWidth := availableWidth / (maxCols : ℝ)
  let brickHeight := (28 : ℝ)
  let offsetX := s.bounds.x + 8
  let offsetY := s.bounds.y + 8
  let newPaddleWidth := max 100 (200 - ((levelIndex : ℝ) - 1) * 20)
  let s := { s with levelBasePaddleWidth := newPaddleWidth,
                    paddle := { s.paddle with width := newPaddleWidth } }
  let s := { s with bricks := buildLevel s.levels levelIndex brickWidth brickHeight offsetX offsetY }
  let s := s.positionPaddleAndBall
  { s with ballAttached := false }

/-- `GameEngine::advanceToNextLevel`: returns (advanced?, updated state). -/
noncomputable def advanceToNextLevel (s : GameState) : Bool × GameState :=
  if ¬ hasLevel s.levels (s.currentLevel + 1) then (false, s)
  else
    -- reset destroyed flags before building the new level
    let bricks := s.bricks.map (fun b =>
      if b.isDestroyed then b.restoreState { b.state with destroyed := false } else b)
    let s := resetLevel { s with bricks := bricks } (s.currentLevel + 1)
    let s := s.attachBallToPaddle
    (true, { s with levelComplete := false })

/-- `GameEngine::snapshot`.  The three `config*` fields keep the
`EndgameSnapshot` member initializers: `GameEngine::snapshot` never writes
them. -/
noncomputable def snapshot (s : GameState) (name configName : String) : EndgameSnapshot :=
  { name := name, configName := configName,
    configBallSpeed := 5, configRandomSeed := -1, configStartingLevel := 1,
    level := s.currentLevel, score := s.score, lives := s.lives,
    comboStreak := s.comboStreak, scoreMultiplier := s.scoreMultiplier,
    expandTimer := s.expandTimer, speedBoostTimer := s.speedBoostTimer,
    pointMultiplier := (s.pointMultiplier : ℝ), pointMultiplierTimer := s.pointMultiplierTimer,
    bounds := s.bounds, ball := s.ball.state, paddle := s.paddle.state,
    ballAttached := s.ballAttached,
    bricks := s.bricks.map Brick.state,
    powerups := s.powerups.map (fun p => ⟨p.type.toInt, p.position, p.velocity, p.size⟩) }

/-- `GameEngine::loadFromSnapshot`. -/
noncomputable def loadFromSnapshot (s : GameState) (state : EndgameSnapshot) : GameState :=
  let paddle := s.paddle.restore state.paddle
  { s with bounds := state.bounds, score := state.score, lives := state.lives,
           currentLevel := state.level,
           ball := s.ball.restore state.ball,
           paddle := paddle,
           ballAttached := state.ballAttached,
           levelComplete := false,
           comboStreak := state.comboStreak,
           scoreMultiplier := state.scoreMultiplier,
           expandTimer := state.expandTimer,
           speedBoostTimer := state.speedBoostTimer,
           pointMultiplier := doubleToInt state.pointMultiplier,
           pointMultiplierTimer := state.pointMultiplierTimer,
           levelBasePaddleWidth := paddle.width,
           powerups := state.powerups.map (fun saved =>
             { type := PowerupType.ExpandPaddle, position := saved.position,
               velocity := saved.velocity, size := saved.size : Powerup }),
           bricks := state.bricks.filterMap createBrickFromState }

end GameState

/-- A concrete engine state (fresh game on a 400×300 playfield, no bricks
or pickups, all effect timers idle) used as a base point for concrete
instantiations. -/
def sampleState : GameState where
  rng := ⟨fun _ => 0, 0⟩
  ball := ⟨⟨200, 150⟩, ⟨0, -260⟩, 8⟩
  paddle := ⟨⟨150, 268⟩, 110, 20, 280⟩
  bricks := []
  powerups := []
  bounds := ⟨0, 0, 400, 300⟩
  score := 0
  lives := 3
  currentLevel := 1
  startingLevel := 1
  ballSpeed := 260
  baseBallSpeed := 260
  ballAttached := false
  levelComplete := false
  comboStreak := 0
  scoreMultiplier := 1
  expandTimer := 0
  speedBoostTimer := 0
  pointMultiplier := 1
  pointMultiplierTimer := 0
  levelBasePaddleWidth := 110
  bigBallTimer := 0
  baseBallRadius := 8
  levels := []

-- ===========================================================================
-- Theorems
-- ===========================================================================

namespace Vector2D

@[simp] theorem add_x (a b : Vector2D) : (a + b).x = a.x + b.x := rfl
@[simp] theorem add_y (a b : Vector2D) : (a + b).y = a.y + b.y := rfl
@[simp] theorem sub_x (a b : Vector2D) : (a - b).x = a.x - b.x := rfl
@[simp] theorem sub_y (a b : Vector2D) : (a - b).y = a.y - b.y := rfl
@[simp] theorem smul_x (a : Vector2D) (c : ℝ) : (a.smul c).x = a.x * c := rfl
@[simp] theorem smul_y (a : Vector2D) (c : ℝ) : (a.smul c).y = a.y * c := rfl

end Vector2D

-- Shared helper lemmas

/-- Rebuilding a brick from its own saved state is the identity: the
constructor chosen by `createBrickFromState` restores the bounds and type,
and `restoreState` restores the remaining fields. -/
theorem createBrickFromState_state (b : Brick) : createBrickFromState b.state = some b := by
  obtain ⟨type, bounds, hits, destroyed, assigned⟩ := b
  cases type <;>
    simp [createBrickFromState, Brick.state, Brick.restoreState, NormalBrick,
      DurableBrick, IndestructibleBrick]

/-- C++ truncation of an integral double recovers the integer. -/
theorem doubleToInt_intCast (n : ℤ) : doubleToInt (n : ℝ) = n := by
  unfold doubleToInt
  by_cases h : (0 : ℝ) ≤ (n : ℝ)
  · rw [if_pos h, Int.floor_intCast]
  · rw [if_neg h]
    rw [show (-(n : ℝ)) = ((-n : ℤ) : ℝ) by push_cast; ring, Int.floor_intCast]
    ring

theorem filterMap_createBrickFromState_state (l : List Brick) :
    List.filterMap (createBrickFromState ∘ Brick.state) l = l := by
  induction l with
  | nil => rfl
  | cons b rest ih => simp [createBrickFromState_state, ih]

/-- C1: `loadFromSnapshot ∘ snapshot` characterized exactly: loading engine
`t` from `s`'s snapshot restores `s`'s score, lives, level, combo,
multipliers, expand/speed-boost/point-multiplier timers, attachment flag,
bounds, ball, paddle and bricks, while the in-flight powerups all get type
`ExpandPaddle`, `levelComplete` is unconditionally cleared,
`levelBasePaddleWidth` is overwritten with the restored paddle width, and
everything else — including the big-ball timer, which the snapshot does not
capture — keeps the loading engine's value. -/
theorem C1_snapshot_roundtrip (t s : GameState) (name configName : String) :
    t.loadFromSnapshot (s.snapshot name configName) =
      { t with bounds := s.bounds, score := s.score, lives := s.lives,
               currentLevel := s.currentLevel, ball := s.ball,
               paddle := { s.paddle with speed := t.paddle.speed },
               ballAttached := s.ballAttached, levelComplete := false,
               comboStreak := s.comboStreak, scoreMultiplier := s.scoreMultiplier,
               expandTimer := s.expandTimer, speedBoostTimer := s.speedBoostTimer,
               pointMultiplier := s.pointMultiplier,
               pointMultiplierTimer := s.pointMultiplierTimer,
               levelBasePaddleWidth := s.paddle.width,
               powerups := s.powerups.map (fun p => { p with type := PowerupType.ExpandPaddle }),
               bricks := s.bricks } := by
  simp [GameState.loadFromSnapshot, GameState.snapshot, Ball.restore, Ball.state,
    Paddle.restore, Paddle.state, doubleToInt_intCast, Function.comp,
    filterMap_createBrickFromState_state]

/-- C1 counterexample: an engine whose `levelComplete_` flag is set is not
restored identically by a same-engine snapshot round trip — the flag, part
of the §3 GameEngine state, is cleared to `false` by `loadFromSnapshot`. -/
theorem C1_counterexample :
    (({ sampleState with levelComplete := true } : GameState).loadFromSnapshot
      (({ sampleState with levelComplete := true } : GameState).snapshot "save" "cfg")).levelComplete
        = false
    ∧ ({ sampleState with levelComplete := true } : GameState).levelComplete = true :=
  ⟨rfl, rfl⟩

/-- C3: `loadFromSnapshot` restores every saved in-flight pickup with type
`ExpandPaddle` regardless of the saved type value, keeping its position,
velocity and size. -/
theorem C3_pickup_type_collapsed (t : GameState) (snap : EndgameSnapshot) :
    (t.loadFromSnapshot snap).powerups =
      snap.powerups.map (fun saved =>
        { type := PowerupType.ExpandPaddle, position := saved.position,
          velocity := saved.velocity, size := saved.size : Powerup }) := rfl

/-- C8: `applyHit` on an indestructible brick returns false and leaves the
brick untouched; over any sequence of hits the sentinel hit count
(`INT_MAX`) and the cleared destroyed flag persist. -/
theorem C8_indestructible_immutable :
    (∀ b : Brick, b.type = BrickType.Indestructible → b.applyHit = (false, b))
    ∧ ∀ (bounds : Rect) (n : ℕ),
        (IndestructibleBrick bounds).applyHitSeq n = IndestructibleBrick bounds
        ∧ ((IndestructibleBrick bounds).applyHitSeq n).hitsRemaining = intMax
        ∧ ((IndestructibleBrick bounds).applyHitSeq n).isDestroyed = false := by
  constructor
  · intro b h
    simp [Brick.applyHit, Brick.isBreakable, h]
  · intro bounds n
    induction n with
    | zero => exact ⟨rfl, rfl, rfl⟩
    | succ n ih =>
      have h1 : (IndestructibleBrick bounds).applyHitSeq (n + 1) = IndestructibleBrick bounds := by
        show ((IndestructibleBrick bounds).applyHitSeq n).applyHit.2 = _
        rw [ih.1]
        simp [Brick.applyHit, Brick.isBreakable, IndestructibleBrick]
      exact ⟨h1, by rw [h1]; rfl, by rw [h1]; rfl⟩

theorem C8_witness :
    (IndestructibleBrick ⟨0, 0, 40, 20⟩).applyHit = (false, IndestructibleBrick ⟨0, 0, 40, 20⟩) :=
  C8_indestructible_immutable.1 _ rfl

/-- C9: when no next level exists, `advanceToNextLevel` returns false and
leaves the whole engine state untouched. -/
theorem C9_advance_without_next_is_noop (s : GameState)
    (h : hasLevel s.levels (s.currentLevel + 1) = false) :
    s.advanceToNextLevel = (false, s) := by
  simp [GameState.advanceToNextLevel, h]

theorem C9_witness :
    hasLevel sampleState.levels (sampleState.currentLevel + 1) = false
    ∧ sampleState.advanceToNextLevel = (false, sampleState) :=
  ⟨rfl, C9_advance_without_next_is_noop sampleState rfl⟩

/-- C7: collecting `ExpandPaddle` twice before the first expiry stacks the
timer to `min(24, 60)` seconds, and the second application leaves the
paddle width unchanged at the capped target `min(levelBase + 70, 320)`. -/
theorem C7_expand_twice (s : GameState) (p : Powerup)
    (hp : p.type = PowerupType.ExpandPaddle)
    (h0 : s.expandTimer = 0) (hbase : s.levelBasePaddleWidth ≤ 320) :
    ((s.applyPowerup p).applyPowerup p).expandTimer = min 24 60
    ∧ ((s.applyPowerup p).applyPowerup p).paddle.width = (s.applyPowerup p).paddle.width
    ∧ (s.applyPowerup p).paddle.width = min (s.levelBasePaddleWidth + 70) 320 := by
  obtain ⟨pt, ppos, pvel, psize⟩ := p
  cases hp
  simp only [GameState.applyPowerup, clamp, kExpandWidthBonus, kMaxPaddleWidth,
    kExpandDuration, h0]
  exact ⟨by norm_num, trivial, max_eq_right (le_min (by linarith) hbase)⟩

theorem C7_witness :
    (⟨PowerupType.ExpandPaddle, ⟨200, 100⟩, ⟨0, 120⟩, 14⟩ : Powerup).type
        = PowerupType.ExpandPaddle
    ∧ sampleState.expandTimer = 0 ∧ sampleState.levelBasePaddleWidth ≤ 320
    ∧ (((sampleState.applyPowerup ⟨PowerupType.ExpandPaddle, ⟨200, 100⟩, ⟨0, 120⟩, 14⟩).applyPowerup
          ⟨PowerupType.ExpandPaddle, ⟨200, 100⟩, ⟨0, 120⟩, 14⟩).expandTimer = min 24 60
        ∧ ((sampleState.applyPowerup ⟨PowerupType.ExpandPaddle, ⟨200, 100⟩, ⟨0, 120⟩, 14⟩).applyPowerup
            ⟨PowerupType.ExpandPaddle, ⟨200, 100⟩, ⟨0, 120⟩, 14⟩).paddle.width
          = (sampleState.applyPowerup ⟨PowerupType.ExpandPaddle, ⟨200, 100⟩, ⟨0, 120⟩, 14⟩).paddle.width
        ∧ (sampleState.applyPowerup ⟨PowerupType.ExpandPaddle, ⟨200, 100⟩, ⟨0, 120⟩, 14⟩).paddle.width
          = min (sampleState.levelBasePaddleWidth + 70) 320) := by
  refine ⟨rfl, rfl, ?_, ?_⟩
  · norm_num [sampleState]
  · exact C7_expand_twice sampleState _ rfl rfl (by norm_num [sampleState])

/-- C4: a hit-position ratio outside `[-1, 1]` produces exactly the
reflection of the nearer boundary value: the exit-angle clamp to
`[π/6, 5π/6]` coincides with clamping the ratio first. -/
theorem C4_reflection_ratio_clamped (v : Vector2D) (r : ℝ) (h : r < -1 ∨ r > 1) :
    calculatePaddleReflection v r = calculatePaddleReflection v (clamp r (-1) 1) := by
  have hpi := Real.pi_pos
  unfold calculatePaddleReflection clamp
  rcases h with h | h
  · have hc : max (-1 : ℝ) (min r 1) = -1 := by
      rw [min_eq_left (by linarith)]
      exact max_eq_left (by linarith)
    rw [hc]
    have hm : Real.pi / 3 * r < Real.pi / 3 * (-1) :=
      mul_lt_mul_of_pos_left h (by linarith)
    have hL : max (Real.pi / 6) (min (Real.pi / 2 - Real.pi / 3 * r) (5 * Real.pi / 6))
        = 5 * Real.pi / 6 := by
      rw [min_eq_right (by linarith)]
      exact max_eq_right (by linarith)
    have hR : max (Real.pi / 6) (min (Real.pi / 2 - Real.pi / 3 * (-1)) (5 * Real.pi / 6))
        = 5 * Real.pi / 6 := by
      rw [show Real.pi / 2 - Real.pi / 3 * (-1) = 5 * Real.pi / 6 by ring, min_self]
      exact max_eq_right (by linarith)
    simp only [hL, hR]
  · have hc : max (-1 : ℝ) (min r 1) = 1 := by
      rw [min_eq_right (by linarith)]
      exact max_eq_right (by linarith)
    rw [hc]
    have hm : Real.pi / 3 * 1 < Real.pi / 3 * r :=
      mul_lt_mul_of_pos_left h (by linarith)
    have hL : max (Real.pi / 6) (min (Real.pi / 2 - Real.pi / 3 * r) (5 * Real.pi / 6))
        = Real.pi / 6 := by
      rw [min_eq_left (by linarith)]
      exact max_eq_left (by linarith)
    have hR : max (Real.pi / 6) (min (Real.pi / 2 - Real.pi / 3 * 1) (5 * Real.pi / 6))
        = Real.pi / 6 := by
      rw [show Real.pi / 2 - Real.pi / 3 * 1 = Real.pi / 6 by ring]
      rw [min_eq_left (by linarith)]
      exact max_eq_left le_rfl
    simp only [hL, hR]

theorem C4_witness :
    ((2 : ℝ) < -1 ∨ (2 : ℝ) > 1)
    ∧ calculatePaddleReflection ⟨3, 4⟩ 2 = calculatePaddleReflection ⟨3, 4⟩ (clamp 2 (-1) 1) :=
  ⟨Or.inr (by norm_num), C4_reflection_ratio_clamped ⟨3, 4⟩ 2 (Or.inr (by norm_num))⟩

/-- A vector `(s cos a, -(s sin a))` with `s ≥ 0` has euclidean length `s`. -/
theorem sqrt_cos_sin_length (sp a : ℝ) (h : 0 ≤ sp) :
    Real.sqrt (sp * Real.cos a * (sp * Real.cos a) + -(sp * Real.sin a) * -(sp * Real.sin a))
      = sp := by
  have key : sp * Real.cos a * (sp * Real.cos a) + -(sp * Real.sin a) * -(sp * Real.sin a)
      = sp ^ 2 := by
    have hs := Real.sin_sq_add_cos_sq a
    nlinarith [hs]
  rw [key, Real.sqrt_sq h]

/-- C5: the paddle reflection preserves the ball's speed exactly over the
reals: the output is `(s cos θ, -(s sin θ))` where `s` is the length of the
incoming velocity. -/
theorem C5_reflection_preserves_speed (v : Vector2D) (r : ℝ) :
    (calculatePaddleReflection v r).length = v.length := by
  simp only [calculatePaddleReflection, Vector2D.length]
  exact sqrt_cos_sin_length _ _ (Real.sqrt_nonneg _)

/-- C2 (amended): a ball rectangle already strictly overlapping a brick
rectangle yields hit = false from `sweptAABB` with positive `deltaTime`,
whatever the velocity (in particular for a nonzero approaching one): the
entry time of an already-overlapping pair is negative, and the
`entry < 0.0` guard rejects it. -/
theorem C2_overlap_no_hit (ballRect brickRect : Rect) (velocity : Vector2D)
    (dt : ℝ) (hdt : 0 < dt) (hov : intersects ballRect brickRect) :
    (sweptAABB ballRect velocity brickRect dt).hit = false := by
  obtain ⟨h1, h2, h3, h4⟩ := hov
  simp only [Rect.left, Rect.right, Rect.top, Rect.bottom] at h1 h2 h3 h4
  have hdt' : ¬ dt ≤ 0 := not_le.mpr hdt
  have hA : ¬ ballRect.x < brickRect.x - ballRect.width := by linarith
  have hB : ¬ ballRect.x > brickRect.x - ballRect.width + (brickRect.width + ballRect.width) := by
    linarith
  have hC : ¬ ballRect.y < brickRect.y - ballRect.height := by linarith
  have hD : ¬ ballRect.y > brickRect.y - ballRect.height + (brickRect.height + ballRect.height) := by
    linarith
  rcases lt_trichotomy velocity.x 0 with hvx | hvx | hvx
  · have hx0 : ¬ velocity.x = 0 := ne_of_lt hvx
    have hxgt : ¬ velocity.x > 0 := by linarith
    rcases lt_trichotomy velocity.y 0 with hvy | hvy | hvy
    · have hy0 : ¬ velocity.y = 0 := ne_of_lt hvy
      have hygt : ¬ velocity.y > 0 := by linarith
      simp only [sweptAABB, Rect.left, Rect.right, Rect.top, Rect.bottom, hdt', hx0, hy0,
        hxgt, hygt, false_and, if_false, ite_false]
      rw [if_pos (Or.inr (Or.inl (max_lt
        (div_neg_of_pos_of_neg (by linarith) (mul_neg_of_neg_of_pos hvx hdt))
        (div_neg_of_pos_of_neg (by linarith) (mul_neg_of_neg_of_pos hvy hdt)))))]
      rfl
    · simp only [sweptAABB, Rect.left, Rect.right, Rect.top, Rect.bottom, hdt', hx0, hvy,
        hxgt, hA, hB, hC, hD, false_and, true_and, false_or, or_false, if_false, ite_false,
        lt_self_iff_false, gt_iff_lt, not_false_eq_true, ite_true, if_true]
      rw [if_pos (Or.inr (Or.inl
        (div_neg_of_pos_of_neg (by linarith) (mul_neg_of_neg_of_pos hvx hdt))))]
      rfl
    · have hy0 : ¬ velocity.y = 0 := ne_of_gt hvy
      simp only [sweptAABB, Rect.left, Rect.right, Rect.top, Rect.bottom, hdt', hx0, hy0,
        hxgt, hvy, false_and, if_false, ite_false, if_true, ite_true]
      rw [if_pos (Or.inr (Or.inl (max_lt
        (div_neg_of_pos_of_neg (by linarith) (mul_neg_of_neg_of_pos hvx hdt))
        (div_neg_of_neg_of_pos (by linarith) (mul_pos hvy hdt)))))]
      rfl
  · rcases lt_trichotomy velocity.y 0 with hvy | hvy | hvy
    · have hy0 : ¬ velocity.y = 0 := ne_of_lt hvy
      have hygt : ¬ velocity.y > 0 := by linarith
      simp only [sweptAABB, Rect.left, Rect.right, Rect.top, Rect.bottom, hdt', hvx, hy0,
        hygt, hA, hB, hC, hD, true_and, false_and, false_or, or_false, if_false, ite_false,
        lt_self_iff_false, gt_iff_lt, not_false_eq_true, ite_true, if_true]
      rw [if_pos (Or.inr (Or.inl
        (div_neg_of_pos_of_neg (by linarith) (mul_neg_of_neg_of_pos hvy hdt))))]
      rfl
    · simp only [sweptAABB, Rect.left, Rect.right, Rect.top, Rect.bottom, hdt', hvx, hvy,
        hA, hB, hC, hD, true_and, false_or, or_false, if_false, ite_false, lt_self_iff_false,
        ite_true, if_true]
      rfl
    · have hy0 : ¬ velocity.y = 0 := ne_of_gt hvy
      simp only [sweptAABB, Rect.left, Rect.right, Rect.top, Rect.bottom, hdt', hvx, hy0,
        hvy, hA, hB, hC, hD, true_and, false_and, false_or, or_false, if_false, ite_false,
        lt_self_iff_false, gt_iff_lt, not_false_eq_true, ite_true, if_true]
      rw [if_pos (Or.inr (Or.inl
        (div_neg_of_neg_of_pos (by linarith) (mul_pos hvy hdt))))]
      rfl
  · have hx0 : ¬ velocity.x = 0 := ne_of_gt hvx
    rcases lt_trichotomy velocity.y 0 with hvy | hvy | hvy
    · have hy0 : ¬ velocity.y = 0 := ne_of_lt hvy
      have hygt : ¬ velocity.y > 0 := by linarith
      simp only [sweptAABB, Rect.left, Rect.right, Rect.top, Rect.bottom, hdt', hx0, hy0,
        hvx, hygt, false_and, if_false, ite_false, if_true, ite_true]
      rw [if_pos (Or.inr (Or.inl (max_lt
        (div_neg_of_neg_of_pos (by linarith) (mul_pos hvx hdt))
        (div_neg_of_pos_of_neg (by linarith) (mul_neg_of_neg_of_pos hvy hdt)))))]
      rfl
    · simp only [sweptAABB, Rect.left, Rect.right, Rect.top, Rect.bottom, hdt', hx0, hvx,
        hvy, hA, hB, hC, hD, true_and, false_and, false_or, or_false, if_false, ite_false,
        lt_self_iff_false, gt_iff_lt, not_false_eq_true, ite_true, if_true]
      rw [if_pos (Or.inr (Or.inl
        (div_neg_of_neg_of_pos (by linarith) (mul_pos hvx hdt))))]
      rfl
    · have hy0 : ¬ velocity.y = 0 := ne_of_gt hvy
      simp only [sweptAABB, Rect.left, Rect.right, Rect.top, Rect.bottom, hdt', hx0, hy0,
        hvx, hvy, false_and, if_false, ite_false, if_true, ite_true]
      rw [if_pos (Or.inr (Or.inl (max_lt
        (div_neg_of_neg_of_pos (by linarith) (mul_pos hvx hdt))
        (div_neg_of_neg_of_pos (by linarith) (mul_pos hvy hdt)))))]
      rfl

/-- C2 counterexample: a ball square overlapping a brick square and moving
toward it on both axes, over a positive time step, still gets hit = false
(the claim asserts hit = true with time in `[0, 1]`). -/
theorem C2_counterexample :
    intersects ⟨0, 0, 10, 10⟩ ⟨5, 5, 10, 10⟩
    ∧ ((⟨1, 1⟩ : Vector2D).x > 0 ∧ (⟨1, 1⟩ : Vector2D).y > 0)
    ∧ (0 : ℝ) < 1
    ∧ (sweptAABB ⟨0, 0, 10, 10⟩ ⟨1, 1⟩ ⟨5, 5, 10, 10⟩ 1).hit = false := by
  refine ⟨?_, ⟨by norm_num, by norm_num⟩, by norm_num, ?_⟩
  · norm_num [intersects, Rect.left, Rect.right, Rect.top, Rect.bottom]
  · norm_num [sweptAABB, Rect.left, Rect.right, Rect.top, Rect.bottom, SweptAABBResult.noHit]

theorem C2_witness :
    (0 : ℝ) < 1 / 2 ∧ intersects ⟨0, 0, 4, 4⟩ ⟨2, 2, 4, 4⟩
    ∧ (sweptAABB ⟨0, 0, 4, 4⟩ ⟨0, 3⟩ ⟨2, 2, 4, 4⟩ (1 / 2)).hit = false := by
  have hov : intersects ⟨0, 0, 4, 4⟩ ⟨2, 2, 4, 4⟩ := by
    norm_num [intersects, Rect.left, Rect.right, Rect.top, Rect.bottom]
  exact ⟨by norm_num, hov, C2_overlap_no_hit _ _ _ _ (by norm_num) hov⟩

/-- C6: in a frame where (after the powerup phase) the ball is free and its
bottom edge has reached the playfield bottom, `update` takes exactly the
life-loss early return: lives drop by exactly 1, the combo streak and score
multiplier reset, the physics phase is skipped (bricks and score are left
untouched), and when lives remain the ball is repositioned and reattached
to the paddle; moreover while the ball is attached `update` never changes
lives at all beyond the powerup phase — the bottom-out branch is
unreachable. -/
theorem C6_life_loss_frame (s : GameState) (dt : ℝ)
    (hgo : s.isGameOver = false) (hlc : s.levelComplete = false)
    (hatt : (s.updatePowerups dt).ballAttached = false)
    (hbot : (s.updatePowerups dt).ball.bounds.bottom ≥ (s.updatePowerups dt).bounds.bottom) :
    s.update dt =
      (if ¬ (({ s.updatePowerups dt with
                lives := (s.updatePowerups dt).lives - 1 }).resetCombo).isGameOver
       then ((({ s.updatePowerups dt with
                 lives := (s.updatePowerups dt).lives - 1 }).resetCombo).positionPaddleAndBall).attachBallToPaddle
       else ({ s.updatePowerups dt with
               lives := (s.updatePowerups dt).lives - 1 }).resetCombo)
    ∧ (s.update dt).lives = (s.updatePowerups dt).lives - 1
    ∧ (s.update dt).comboStreak = 0
    ∧ (s.update dt).scoreMultiplier = 1
    ∧ (s.update dt).bricks = (s.updatePowerups dt).bricks
    ∧ (s.update dt).score = (s.updatePowerups dt).score
    ∧ (1 ≤ (s.updatePowerups dt).lives - 1 → (s.update dt).ballAttached = true)
    ∧ ∀ (t : GameState) (u : ℝ), t.isGameOver = false → t.levelComplete = false →
        (t.updatePowerups u).ballAttached = true →
        (t.update u).lives = (t.updatePowerups u).lives := by
  have key : s.update dt =
      (if ¬ (({ s.updatePowerups dt with
                lives := (s.updatePowerups dt).lives - 1 }).resetCombo).isGameOver
       then ((({ s.updatePowerups dt with
                 lives := (s.updatePowerups dt).lives - 1 }).resetCombo).positionPaddleAndBall).attachBallToPaddle
       else ({ s.updatePowerups dt with
               lives := (s.updatePowerups dt).lives - 1 }).resetCombo) := by
    simp only [GameState.update, hgo, hlc, hatt, hbot, Bool.false_eq_true, or_self,
      if_false, ite_false, if_true, ite_true, ge_iff_le]
  have attached_no_change : ∀ (t : GameState) (u : ℝ), t.isGameOver = false →
      t.levelComplete = false → (t.updatePowerups u).ballAttached = true →
      (t.update u).lives = (t.updatePowerups u).lives := by
    intro t u hgo' hlc' hatt'
    simp only [GameState.update, hgo', hlc', hatt', Bool.false_eq_true, or_self,
      if_false, ite_false, if_true, ite_true]
  refine ⟨key, ?_, ?_, ?_, ?_, ?_, ?_, attached_no_change⟩ <;> rw [key]
  · split_ifs with h <;>
      simp [GameState.attachBallToPaddle, GameState.positionPaddleAndBall, GameState.resetCombo]
  · split_ifs with h <;>
      simp [GameState.attachBallToPaddle, GameState.positionPaddleAndBall, GameState.resetCombo]
  · split_ifs with h <;>
      simp [GameState.attachBallToPaddle, GameState.positionPaddleAndBall, GameState.resetCombo]
  · split_ifs with h <;>
      simp [GameState.attachBallToPaddle, GameState.positionPaddleAndBall, GameState.resetCombo]
  · split_ifs with h <;>
      simp [GameState.attachBallToPaddle, GameState.positionPaddleAndBall, GameState.resetCombo]
  · intro hlv
    rw [if_pos]
    · simp [GameState.attachBallToPaddle]
    · simp [GameState.isGameOver, GameState.resetCombo]
      omega

theorem C6_witness :
    ({ sampleState with ball := ⟨⟨200, 310⟩, ⟨0, 50⟩, 8⟩ } : GameState).isGameOver = false
    ∧ ({ sampleState with ball := ⟨⟨200, 310⟩, ⟨0, 50⟩, 8⟩ } : GameState).levelComplete = false
    ∧ (({ sampleState with ball := ⟨⟨200, 310⟩, ⟨0, 50⟩, 8⟩ } : GameState).updatePowerups 1).ballAttached
        = false
    ∧ (({ sampleState with ball := ⟨⟨200, 310⟩, ⟨0, 50⟩, 8⟩ } : GameState).updatePowerups 1).ball.bounds.bottom
        ≥ (({ sampleState with ball := ⟨⟨200, 310⟩, ⟨0, 50⟩, 8⟩ } : GameState).updatePowerups 1).bounds.bottom
    ∧ (({ sampleState with ball := ⟨⟨200, 310⟩, ⟨0, 50⟩, 8⟩ } : GameState).update 1).lives
        = (({ sampleState with ball := ⟨⟨200, 310⟩, ⟨0, 50⟩, 8⟩ } : GameState).updatePowerups 1).lives - 1 := by
  have hup : ({ sampleState with ball := ⟨⟨200, 310⟩, ⟨0, 50⟩, 8⟩ } : GameState).updatePowerups 1
      = { sampleState with ball := ⟨⟨200, 310⟩, ⟨0, 50⟩, 8⟩ } := by
    simp [GameState.updatePowerups, sampleState]
  have hatt : (({ sampleState with ball := ⟨⟨200, 310⟩, ⟨0, 50⟩, 8⟩ } : GameState).updatePowerups 1).ballAttached
      = false := by rw [hup]; rfl
  have hbot : (({ sampleState with ball := ⟨⟨200, 310⟩, ⟨0, 50⟩, 8⟩ } : GameState).updatePowerups 1).ball.bounds.bottom
      ≥ (({ sampleState with ball := ⟨⟨200, 310⟩, ⟨0, 50⟩, 8⟩ } : GameState).updatePowerups 1).bounds.bottom := by
    rw [hup]
    norm_num [sampleState, Ball.bounds, Rect.bottom]
  exact ⟨rfl, rfl, hatt, hbot,
    (C6_life_loss_frame ({ sampleState with ball := ⟨⟨200, 310⟩, ⟨0, 50⟩, 8⟩ } : GameState) 1
      rfl rfl hatt hbot).2.1⟩

/-- The earliest-hit scan only ever selects an index whose brick satisfies
any property enjoyed by every non-destroyed brick of the scanned list
(the scan skips destroyed bricks). -/
theorem scanBricks_hitIndex_spec (ballBounds : Rect) (ballPos velocity : Vector2D) (dt : ℝ)
    (P : ℕ → Prop) :
    ∀ (l : List Brick) (i0 : ℕ) (acc : HitScan),
      (∀ j, acc.hitIndex = some j → P j) →
      (∀ k b, l.get? k = some b → b.isDestroyed = false → P (i0 + k)) →
      ∀ j, (scanBricks ballBounds ballPos velocity dt l i0 acc).hitIndex = some j → P j := by
  intro l
  induction l with
  | nil => intro i0 acc hacc _ j hj; exact hacc j hj
  | cons b rest ih =>
    intro i0 acc hacc hl j hj
    have hshift : ∀ k bb, rest.get? k = some bb → bb.isDestroyed = false → P (i0 + 1 + k) := by
      intro k bb hk hbb
      have := hl (k + 1) bb (by simpa using hk) hbb
      simpa [Nat.add_assoc, Nat.add_comm 1 k] using this
    cases hdb : b.isDestroyed with
    | true =>
      rw [scanBricks, if_pos hdb] at hj
      exact ih (i0 + 1) acc hacc hshift j hj
    | false =>
      have hP0 : P i0 := by simpa using hl 0 b rfl hdb
      rw [scanBricks, if_neg (by simp [hdb])] at hj
      simp only [] at hj
      split_ifs at hj with hhit hc1 hc2
      · refine ih (i0 + 1) _ ?_ hshift j hj
        intro j' hj'
        have h2 : some i0 = some j' := hj'
        injection h2 with h2
        subst h2
        exact hP0
      · refine ih (i0 + 1) _ ?_ hshift j hj
        intro j' hj'
        have h2 : some i0 = some j' := hj'
        injection h2 with h2
        subst h2
        exact hP0
      · exact ih (i0 + 1) acc hacc hshift j hj
      · exact ih (i0 + 1) acc hacc hshift j hj

/-- The big-ball area sweep never touches a brick that is already
destroyed. -/
theorem bigBallSweep_preserves_destroyed (c : Vector2D) (r : ℝ) :
    ∀ (l : List Brick) (i : ℕ) (b : Brick), l.get? i = some b → b.isDestroyed = true →
      (bigBallSweep c r l).1.get? i = some b := by
  intro l
  induction l with
  | nil => intro i b h _; simp at h
  | cons hd tl ih =>
    intro i b hget hdes
    cases i with
    | zero =>
      simp only [List.get?] at hget
      injection hget with hget
      subst hget
      rw [bigBallSweep, if_pos hdes]
      rfl
    | succ n =>
      simp only [List.get?] at hget
      rw [bigBallSweep]
      simp only []
      split_ifs <;> simpa [List.get?_cons_succ] using ih n b hget hdes

/-- Bricks that are already destroyed when `resolveBrickCollisions`'s
iteration loop runs are never selected nor hit again (both the scan and the
big-ball sweep skip them), hence survive unchanged. -/
theorem resolveIter_preserves_destroyed (dt : ℝ) (mode : Bool) :
    ∀ (n : ℕ) (s : ResolveState) (i : ℕ) (b : Brick),
      s.bricks.get? i = some b → b.isDestroyed = true →
      (resolveIter dt mode n s).bricks.get? i = some b := by
  intro n
  induction n with
  | zero => intro s i b h _; simpa [resolveIter] using h
  | succ n ih =>
    intro s i b hget hd
    rw [resolveIter]
    by_cases hrt : ¬ s.remainingTime > 0
    · rw [if_pos hrt]; exact hget
    · rw [if_neg hrt]
      simp only []
      rcases hscan : (scanBricks s.ball.bounds s.ball.position s.velocity
          (dt * s.remainingTime) s.bricks 0 ⟨1, doubleMax, none, ⟨0, 0⟩⟩).hitIndex with _ | hitIndex
      · exact hget
      · simp only []
        have hsel : ∃ bj, s.bricks.get? hitIndex = some bj ∧ bj.isDestroyed = false := by
          refine scanBricks_hitIndex_spec s.ball.bounds s.ball.position s.velocity
            (dt * s.remainingTime) (fun j => ∃ bj, s.bricks.get? j = some bj ∧ bj.isDestroyed = false)
            s.bricks 0 ⟨1, doubleMax, none, ⟨0, 0⟩⟩ (by rintro _ ⟨⟩) ?_ hitIndex hscan
          intro k bb hk hbb
          exact ⟨bb, by simpa using hk, hbb⟩
        obtain ⟨bj, hbj, hbjd⟩ := hsel
        have hne : hitIndex ≠ i := by
          intro he
          subst he
          rw [hget] at hbj
          injection hbj with hbj
          subst hbj
          rw [hd] at hbjd
          exact Bool.true_eq_false.mp hbjd
        have hset : (s.bricks.set hitIndex
            ((s.bricks.getD hitIndex (NormalBrick ⟨0, 0, 0, 0⟩)).applyHit).2).get? i = some b := by
          rw [List.get?_set_ne _ _ hne]
          exact hget
        split_ifs with hdes hmode
        · exact ih _ i b (bigBallSweep_preserves_destroyed _ _ _ i b hset hd) hd
        · exact ih _ i b hset hd
        · exact ih _ i b hset hd

/-- C10: `applyHit` on an already-destroyed breakable brick returns `true`
again (the "just destroyed" result is not exactly-once) while leaving the
brick unchanged; and `resolveBrickCollisions` — both its earliest-hit scan
and its big-ball area loop — skips bricks that are already destroyed on
entry, leaving them exactly as they were. -/
theorem C10_destroyed_hit_again_and_callers_skip :
    (∀ b : Brick, b.isBreakable = true → b.hitsRemaining = 0 → b.destroyed = true →
      b.applyHit = (true, b))
    ∧ ∀ (ball : Ball) (bricks : List Brick) (dt : ℝ) (mode : Bool) (i : ℕ) (b : Brick),
        bricks.get? i = some b → b.isDestroyed = true →
        (resolveBrickCollisions ball bricks dt mode).2.2.get? i = some b := by
  constructor
  · intro b hbr hhits hdes
    obtain ⟨type, bounds, hits, destroyed, assigned⟩ := b
    simp only at hhits hdes
    subst hhits
    subst hdes
    simp [Brick.applyHit, hbr]
  · intro ball bricks dt mode i b hget hd
    simp only [resolveBrickCollisions]
    exact resolveIter_preserves_destroyed dt mode 3 _ i b hget hd

theorem C10_witness :
    (⟨BrickType.Normal, ⟨0, 0, 40, 20⟩, 0, true, -1⟩ : Brick).applyHit
      = (true, ⟨BrickType.Normal, ⟨0, 0, 40, 20⟩, 0, true, -1⟩) :=
  C10_destroyed_hit_again_and_callers_skip.1 _ rfl rfl rfl

end Breakout
